import Mathlib

/-!
Shallow embedding of the voiceclone repository (voice-cloning TTS orchestration
layer) and proofs about its observable behavior.

The embedding follows `src/voiceclone` file by file:
* `services/tts_client.py`  — language tables, the four backend synthesis
  methods, the unified dispatcher and the simulated streaming generator;
* `utils/audio.py`          — upload validation;
* `services/voice_service.py` — voice creation/lookup/listing over an explicit
  database-and-filesystem state;
* `api/v1/tts.py`, `api/v1/voices.py`, `api/v1/websocket.py` — the HTTP and
  WebSocket request handlers, including the per-connection message loop.

External effects (filesystem reads, base64, the remote inference POST, audio
decoding) are supplied by explicit environment records; every handler returns,
next to its observable output, the number of remote synthesis calls it issued.
-/

namespace Voiceclone

/-- Supported languages for XTTS-v2 (`tts_client.py`, `XTTS_SUPPORTED_LANGUAGES`). -/
def XTTS_SUPPORTED_LANGUAGES : List String :=
  ["en", "es", "fr", "de", "it", "pt", "pl", "tr", "ru", "nl", "cs", "ar",
   "zh-cn", "ja", "hu", "ko", "hi"]

/-- Supported languages for svara-TTS (`tts_client.py`, `SVARA_SUPPORTED_LANGUAGES`). -/
def SVARA_SUPPORTED_LANGUAGES : List String :=
  ["hi", "bn", "mr", "te", "kn", "ta", "gu", "ml", "pa", "as", "or", "bo",
   "doi", "bho", "mai", "mag", "cg", "ne", "sa", "en-in"]

/-- Svara emotion tags (`tts_client.py`, `SVARA_EMOTIONS`). -/
def SVARA_EMOTIONS : List String := ["happy", "sad", "anger", "fear", "neutral"]

/-- Combined supported languages: `list(set(XTTS ++ SVARA))` in the source.
Python's `set` only affects order and duplicates; membership is that of the
union, which `dedup` preserves. -/
def SUPPORTED_LANGUAGES : List String :=
  (XTTS_SUPPORTED_LANGUAGES ++ SVARA_SUPPORTED_LANGUAGES).dedup

/-- A JSON response body from the remote inference service.  The remote
contract uses a fixed key vocabulary, so the dict is modelled as a record of
optional fields: a key is present in the dict iff the field is `some`. -/
structure RemoteResponse where
  audio_base64 : Option String := none
  sample_rate : Option Nat := none
  duration_seconds : Option ℚ := none
  processing_time_ms : Option ℚ := none
  model : Option String := none
  language : Option String := none
  error : Option String := none
deriving Repr, DecidableEq

/-- `TTSClientError` with the payload of each raise site in `tts_client.py`
(the f-string rendering of the message is abstracted into the constructor). -/
inductive TTSClientError where
  | unsupportedLanguage (language : String) (supported : List String)
  | unsupportedEmotion (emotion : String) (supported : List String)
  | audioFileNotFound (path : String)
  | audioPathRequired (model : String)
  | unknownModel (model : String)
  | httpError (message : String)
  | ttsError (message : String)
deriving Repr, DecidableEq

/-- `str(e)` for a `TTSClientError`, used where handlers embed the exception
text into an error frame. -/
def TTSClientError.message : TTSClientError → String
  | .unsupportedLanguage l _ => "Unsupported language: " ++ l
  | .unsupportedEmotion e _ => "Unsupported emotion for svara: " ++ e
  | .audioFileNotFound p => "Audio file not found: " ++ p
  | .audioPathRequired m => "audio_path is required for " ++ m ++ " model"
  | .unknownModel m => "Unknown model: " ++ m
  | .httpError m => "Failed to connect to TTS service: " ++ m
  | .ttsError m => "TTS error: " ++ m

/-- The JSON payload POSTed to the single remote endpoint.  Optional fields
model keys that each backend may or may not include. -/
structure Payload where
  model : String
  text : String
  audio_prompt_base64 : Option String := none
  language : Option String := none
  voice : Option String := none
  emotion : Option String := none
  speaker_gender : Option String := none
  exaggeration : Option ℚ := none
  cfg_weight : Option ℚ := none
deriving Repr, DecidableEq

/-- Outcome of one POST to the remote endpoint: an `httpx.HTTPError`
(transport / status failure) or a decoded JSON body. -/
inductive RemoteOutcome where
  | transportError (message : String)
  | response (r : RemoteResponse)

/-- Environment for the TTS client: filesystem and base64 primitives plus the
remote service's behavior per payload. -/
structure Env where
  fileExists : String → Bool
  readBytes : String → String
  b64encode : String → String
  b64decode : String → String
  remote : Payload → RemoteOutcome

/-- Python truthiness of an optional string (`if emotion:`, `if audio_path:`):
`None` and the empty string are falsy. -/
def truthy : Option String → Bool
  | none => false
  | some s => !s.isEmpty

/-- The shared `try: post / raise_for_status / json / error-key check` block
that each `synthesize_*` method ends with.  Second component counts remote
calls (always 1 here). -/
def postRemote (env : Env) (p : Payload) : Except TTSClientError RemoteResponse × Nat :=
  match env.remote p with
  | .transportError m => (.error (.httpError m), 1)
  | .response r =>
    match r.error with
    | some e => (.error (.ttsError e), 1)
    | none => (.ok r, 1)

/-- `TTSClient.synthesize_xtts`: validates the language against the combined
`SUPPORTED_LANGUAGES` list, then the reference-audio file, then posts. -/
def synthesize_xtts (env : Env) (text : String) (audio_path : String)
    (language : String := "en") : Except TTSClientError RemoteResponse × Nat :=
  if language ∉ SUPPORTED_LANGUAGES then
    (.error (.unsupportedLanguage language SUPPORTED_LANGUAGES), 0)
  else if !env.fileExists audio_path then
    (.error (.audioFileNotFound audio_path), 0)
  else
    postRemote env
      { model := "xtts", text := text,
        audio_prompt_base64 := some (env.b64encode (env.readBytes audio_path)),
        language := some language }

/-- `TTSClient.synthesize_chatterbox`: requires the reference-audio file. -/
def synthesize_chatterbox (env : Env) (text : String) (audio_path : String)
    (exaggeration : ℚ := 1/2) (cfg_weight : ℚ := 1/2) :
    Except TTSClientError RemoteResponse × Nat :=
  if !env.fileExists audio_path then
    (.error (.audioFileNotFound audio_path), 0)
  else
    postRemote env
      { model := "chatterbox", text := text,
        audio_prompt_base64 := some (env.b64encode (env.readBytes audio_path)),
        exaggeration := some exaggeration, cfg_weight := some cfg_weight }

/-- `TTSClient.synthesize_orpheus`: preset voice, optional emotion key
(only added when the emotion string is truthy). -/
def synthesize_orpheus (env : Env) (text : String) (voice : String := "tara")
    (emotion : Option String := none) : Except TTSClientError RemoteResponse × Nat :=
  postRemote env
    { model := "orpheus", text := text, voice := some voice,
      emotion := if truthy emotion then emotion else none }

/-- `TTSClient.synthesize_svara`: validates language and (truthy) emotion, and
only attaches reference audio when the path is truthy and the file exists —
a missing file is silently skipped. -/
def synthesize_svara (env : Env) (text : String) (language : String := "hi")
    (emotion : Option String := none) (speaker_gender : String := "female")
    (audio_path : Option String := none) : Except TTSClientError RemoteResponse × Nat :=
  if language ∉ SVARA_SUPPORTED_LANGUAGES then
    (.error (.unsupportedLanguage language SVARA_SUPPORTED_LANGUAGES), 0)
  else if truthy emotion && !(SVARA_EMOTIONS.contains (emotion.getD "")) then
    (.error (.unsupportedEmotion (emotion.getD "") SVARA_EMOTIONS), 0)
  else
    let base : Payload :=
      { model := "svara", text := text, language := some language,
        speaker_gender := some speaker_gender,
        emotion := if truthy emotion then emotion else none }
    let payload :=
      match audio_path with
      | none => base
      | some p =>
        if truthy (some p) && env.fileExists p then
          { base with audio_prompt_base64 := some (env.b64encode (env.readBytes p)) }
        else base
    postRemote env payload

/-- `TTSClient.synthesize`: dispatch on the model name; xtts and chatterbox
require a truthy `audio_path` before their method is entered. -/
def synthesize (env : Env) (text : String) (model : String := "svara")
    (audio_path : Option String := none) (language : String := "hi")
    (voice : String := "tara") (emotion : Option String := none)
    (speaker_gender : String := "female") : Except TTSClientError RemoteResponse × Nat :=
  if model == "svara" then
    synthesize_svara env text language emotion speaker_gender audio_path
  else if model == "xtts" then
    if !truthy audio_path then (.error (.audioPathRequired "xtts"), 0)
    else synthesize_xtts env text (audio_path.getD "") language
  else if model == "chatterbox" then
    if !truthy audio_path then (.error (.audioPathRequired "chatterbox"), 0)
    else synthesize_chatterbox env text (audio_path.getD "")
  else if model == "orpheus" then
    synthesize_orpheus env text voice emotion
  else
    (.error (.unknownModel model), 0)

/-- One dict yielded by `stream_synthesis`: again a fixed key vocabulary
modelled as optional fields (`some` = key present). -/
structure Chunk where
  error : Option String := none
  chunk_index : Option Nat := none
  audio_base64 : Option String := none
  sample_rate : Option Nat := none
  language : Option String := none
  is_final : Option Bool := none
  total_chunks : Option Nat := none
  duration_seconds : Option ℚ := none
  processing_time_ms : Option ℚ := none
deriving Repr, DecidableEq

/-- `TTSClient.stream_synthesis`: one underlying `synthesize` call, then the
fabricated two-chunk sequence.  A `TTSClientError` from `synthesize`
propagates out of the generator (`Except.error`).  `result["audio_base64"]`
is direct dict indexing in the source; on the reached branch the success
response carries that key, modelled by `getD ""`. -/
def stream_synthesis (env : Env) (text : String) (model : String := "xtts")
    (audio_path : Option String := none) (language : String := "en")
    (voice : String := "tara") (emotion : Option String := none) :
    Except TTSClientError (List Chunk) × Nat :=
  match synthesize env text model audio_path language voice emotion "female" with
  | (.error e, n) => (.error e, n)
  | (.ok result, n) =>
    match result.error with
    | some e => (.ok [{ error := some e, is_final := some true }], n)
    | none =>
      (.ok [
        { chunk_index := some 0,
          audio_base64 := some (result.audio_base64.getD ""),
          sample_rate := some (result.sample_rate.getD 24000),
          language := some (result.language.getD language),
          is_final := some false },
        { is_final := some true, total_chunks := some 1,
          duration_seconds := some (result.duration_seconds.getD 0),
          processing_time_ms := some (result.processing_time_ms.getD 0) }], n)

/-! ### `utils/audio.py` -/

/-- The info dict returned by `get_audio_info` (soundfile metadata). -/
structure AudioInfo where
  duration_seconds : ℚ
  sample_rate : Nat
  channels : Nat
  format : String
  subtype : String
deriving Repr, DecidableEq

/-- The configuration fields used by the embedded code, with the defaults of
`core/config.py`. -/
structure Settings where
  voice_storage_path : String := "/app/data/voices"
  max_voice_sample_size_mb : Nat := 50
  allowed_audio_formats : List String := ["wav", "mp3", "flac", "ogg", "m4a"]
  tts_sample_rate : Nat := 24000

/-- Environment for audio processing: `decode` is the soundfile read of the
uploaded bytes (`none` = unreadable), `normalize` is the pydub
load/downmix/resample/export pipeline applied to the saved original bytes. -/
structure AudioEnv where
  decode : String → Option AudioInfo
  normalize : String → Except String AudioInfo

/-- Python `f"{q:.1f}"` for a nonnegative rational: round to one decimal. -/
def fmt1 (q : ℚ) : String :=
  let t : ℤ := ⌊q * 10 + 1/2⌋
  toString (t / 10) ++ "." ++ toString (t % 10)

/-- Python `f"{q:.2f}"` for a nonnegative rational: round to two decimals. -/
def fmt2 (q : ℚ) : String :=
  let t : ℤ := ⌊q * 100 + 1/2⌋
  toString (t / 100) ++ "." ++ (if t % 100 < 10 then "0" else "") ++ toString (t % 100)

/-- `str.lower()` as a structural map over the characters. -/
def strToLower (s : String) : String := ⟨s.data.map Char.toLower⟩

/-- Split a character list on dots (helper for `Path(...).suffix`). -/
def splitOnDot : List Char → List Char → List (List Char)
  | [], acc => [acc.reverse]
  | c :: cs, acc =>
    if c = '.' then acc.reverse :: splitOnDot cs []
    else splitOnDot cs (c :: acc)

/-- `Path(filename).suffix` without its leading dot: the part after the last
dot of the name, empty when there is no dot, the name starts with its only
dot (hidden file), or the name ends in the dot. -/
def fileSuffix (filename : String) : String :=
  let parts := splitOnDot filename.data []
  match parts with
  | [] => ""
  | [_] => ""
  | [[], _] => ""
  | _ => ⟨parts.getLastD []⟩

/-- `Path(filename).suffix.lower().lstrip(".")` from `validate_audio_file`. -/
def fileExtension (filename : String) : String := strToLower (fileSuffix filename)

/-- `Path(filename).suffix.lower()` (with the dot) from `create_voice`. -/
def fileSuffixDot (filename : String) : String :=
  let sfx := fileSuffix filename
  if sfx = "" then "" else "." ++ strToLower sfx

/-- `validate_audio_file`: size ceiling, extension allow-list, decodability,
then the [3s, 60s] duration window.  Success returns the `format` key and the
audio info (the `valid: True` flag is constant).  `AudioProcessingError` is a
plain message string.  `max_size_mb or settings...` is Python truthiness:
`None` and `0` both fall back to the setting. -/
def validate_audio_file (s : Settings) (aenv : AudioEnv) (file_content filename : String)
    (max_size_mb : Option Nat := none) : Except String (String × AudioInfo) :=
  let max_size := match max_size_mb with
    | some m => if m = 0 then s.max_voice_sample_size_mb else m
    | none => s.max_voice_sample_size_mb
  let size_mb : ℚ := (file_content.length : ℚ) / (1024 * 1024)
  if size_mb > (max_size : ℚ) then
    .error ("File size (" ++ fmt2 size_mb ++ "MB) exceeds maximum allowed ("
      ++ toString max_size ++ "MB)")
  else
    let ext := fileExtension filename
    if ext ∉ s.allowed_audio_formats then
      .error ("Unsupported audio format: " ++ ext ++ ".")
    else
      match aenv.decode file_content with
      | none => .error "Invalid audio file"
      | some info =>
        if info.duration_seconds < 3 then
          .error ("Audio duration (" ++ fmt1 info.duration_seconds
            ++ "s) is too short. Minimum 3 seconds required for voice cloning.")
        else if info.duration_seconds > 60 then
          .error ("Audio duration (" ++ fmt1 info.duration_seconds
            ++ "s) is too long. Maximum 60 seconds allowed.")
        else
          .ok (ext, info)

/-! ### `models/voice.py` and `services/voice_service.py` -/

/-- The persisted voice-profile row.  `created_at` is an abstract monotone
timestamp used only for the `ORDER BY created_at DESC` in listing; the opaque
JSON embedding blobs are reduced to the path string `create_voice` stores. -/
structure Voice where
  id : String
  name : String := ""
  description : Option String := none
  original_filename : String := ""
  original_format : String := ""
  duration_seconds : ℚ := 0
  sample_rate : Nat := 0
  processed_audio_path : String := ""
  chatterbox_data : Option String := none
  orpheus_data : Option String := none
  language : String := "en"
  tags : Option (List String) := none
  is_active : Bool := true
  processing_status : String := "pending"
  processing_error : Option String := none
  created_at : Nat := 0
deriving Repr, DecidableEq

/-- `VoiceServiceError` and its `VoiceNotFoundError` subclass, with the
payload of each raise site. -/
inductive VoiceServiceError where
  | validation (message : String)
  | processFailed (message : String)
  | notFound (voice_id : String)
  | audioMissing (voice_id : String)
deriving Repr, DecidableEq

/-- `str(e)` for a `VoiceServiceError`. -/
def VoiceServiceError.message : VoiceServiceError → String
  | .validation m => m
  | .processFailed m => "Failed to process audio: " ++ m
  | .notFound v => "Voice not found: " ++ v
  | .audioMissing v => "Audio file not found for voice: " ++ v

/-- `VoiceService.get_voice`: `scalar_one_or_none` over `id == voice_id`;
`none` models the raised `VoiceNotFoundError`. -/
def get_voice (db : List Voice) (voice_id : String) : Option Voice :=
  db.find? (fun v => v.id == voice_id)

/-- Stable insertion of a voice into a list already sorted by descending
`created_at` (model of the SQL `ORDER BY created_at DESC`). -/
def insertByCreatedDesc (v : Voice) : List Voice → List Voice
  | [] => [v]
  | w :: ws =>
    if w.created_at ≤ v.created_at then v :: w :: ws
    else w :: insertByCreatedDesc v ws

/-- Sort a voice list by descending `created_at`. -/
def orderByCreatedDesc : List Voice → List Voice
  | [] => []
  | v :: vs => insertByCreatedDesc v (orderByCreatedDesc vs)

/-- `VoiceService.list_voices`: optional active-only filter, count of the
filtered rows, then `ORDER BY created_at DESC OFFSET (page-1)*page_size
LIMIT page_size`. -/
def list_voices (db : List Voice) (page : Nat := 1) (page_size : Nat := 20)
    (active_only : Bool := true) : List Voice × Nat :=
  let filtered := if active_only then db.filter (fun v => v.is_active) else db
  let total := filtered.length
  let offset := (page - 1) * page_size
  (((orderByCreatedDesc filtered).drop offset).take page_size, total)

/-- `VoiceService.get_voice_audio_path`: look the voice up, then require its
`processed_audio_path` to exist on disk. -/
def get_voice_audio_path (fileExists : String → Bool) (db : List Voice)
    (voice_id : String) : Except VoiceServiceError String :=
  match get_voice db voice_id with
  | none => .error (.notFound voice_id)
  | some voice =>
    if !fileExists voice.processed_audio_path then .error (.audioMissing voice_id)
    else .ok voice.processed_audio_path

/-- A filesystem path as its components (storage dir / voice id / file name). -/
abbrev FPath := List String

/-- Rendering of a path to the string stored in the database row. -/
def pathStr (p : FPath) : String := String.intercalate "/" p

/-- The persistent state `create_voice` manipulates: directories, files and
the database session's rows. -/
structure SysState where
  dirs : List FPath := []
  files : List FPath := []
  db : List Voice := []

/-- `VoiceCreate` schema. -/
structure VoiceCreate where
  name : String
  description : Option String := none
  language : String := "en"
  tags : Option (List String) := none

/-- `VoiceService.create_voice`: validate, make the per-voice directory, save
the original, normalize into `processed.wav`; on normalization failure
`shutil.rmtree(voice_dir)` removes the directory tree and the error is
re-raised as `VoiceServiceError`; on success the `Voice` row is added with
status `pending`.  `voice_id` stands for the generated `uuid4`. -/
def create_voice (s : Settings) (aenv : AudioEnv) (st : SysState)
    (voice_data : VoiceCreate) (file_content filename voice_id : String) :
    Except VoiceServiceError Voice × SysState :=
  match validate_audio_file s aenv file_content filename with
  | .error e => (.error (.validation e), st)
  | .ok _info =>
    let voice_dir : FPath := [s.voice_storage_path, voice_id]
    let original_ext := fileSuffixDot filename
    let original_path := voice_dir ++ ["original" ++ original_ext]
    let st2 : SysState :=
      { st with dirs := voice_dir :: st.dirs, files := original_path :: st.files }
    let processed_path := voice_dir ++ ["processed.wav"]
    match aenv.normalize file_content with
    | .error e =>
      (.error (.processFailed e),
       { st2 with
         dirs := st2.dirs.filter (fun d => !(voice_dir.isPrefixOf d)),
         files := st2.files.filter (fun p => !(voice_dir.isPrefixOf p)) })
    | .ok ninfo =>
      let voice : Voice :=
        { id := voice_id, name := voice_data.name,
          description := voice_data.description,
          original_filename := filename,
          original_format := ⟨original_ext.data.dropWhile (· = '.')⟩,
          duration_seconds := ninfo.duration_seconds,
          sample_rate := ninfo.sample_rate,
          processed_audio_path := pathStr processed_path,
          chatterbox_data := some (pathStr processed_path),
          orpheus_data := none,
          language := voice_data.language, tags := voice_data.tags,
          processing_status := "pending" }
      (.ok voice,
       { st2 with files := processed_path :: st2.files, db := st2.db ++ [voice] })

/-! ### `api/v1/voices.py` -/

/-- The body of the paginated `GET /voices` response. -/
structure VoiceListResponse where
  items : List Voice
  total : Nat
  page : Int
  page_size : Int
  total_pages : Nat
deriving Repr, DecidableEq

/-- The `list_voices` endpoint: clamp `page` to at least 1, replace
`page_size < 1` by the default 20 and cap it at 100, query the service, and
report `math.ceil(total / page_size)` pages (1 when the table is empty). -/
def list_voices_endpoint (db : List Voice) (page page_size : Int)
    (active_only : Bool := true) : VoiceListResponse :=
  let page := if page < 1 then 1 else page
  let ps := if page_size < 1 then 20 else if page_size > 100 then 100 else page_size
  let res := list_voices db page.toNat ps.toNat active_only
  let total_pages := if res.2 > 0 then ⌈(res.2 : ℚ) / (ps.toNat : ℚ)⌉₊ else 1
  { items := res.1, total := res.2, page := page, page_size := ps,
    total_pages := total_pages }

/-! ### `api/v1/tts.py` -/

/-- `TTSRequest` schema with its defaults. -/
structure TTSRequest where
  text : String
  voice_id : String
  model : String := "svara"
  language : String := "hi"
  emotion : Option String := none
  speaker_gender : String := "female"
  speed : ℚ := 1
  output_format : String := "wav"

/-- Outcome of `POST /tts/synthesize` (wall-clock processing time omitted). -/
inductive HttpOutcome where
  | success (audio_url : String) (duration_seconds : ℚ) (model_used : String)
  | failure (statusCode : Nat) (detail : String)
deriving Repr, DecidableEq

/-- `synthesize_speech` (`POST /tts/synthesize`): 404 when the voice is
missing, 400 when it is not `ready`, 500 when its processed audio file is
gone, 502 when the client raises; otherwise a data-URL response. -/
def synthesize_speech (env : Env) (db : List Voice) (req : TTSRequest) :
    HttpOutcome × Nat :=
  match get_voice db req.voice_id with
  | none => (.failure 404 ("Voice not found: " ++ req.voice_id), 0)
  | some voice =>
    if voice.processing_status ≠ "ready" then
      (.failure 400 ("Voice is not ready for synthesis. Status: "
        ++ voice.processing_status), 0)
    else
      match get_voice_audio_path env.fileExists db req.voice_id with
      | .error e => (.failure 500 e.message, 0)
      | .ok audio_path =>
        match synthesize env req.text req.model
          (if req.model == "chatterbox" || req.model == "xtts" then some audio_path else none)
          req.language "tara" req.emotion req.speaker_gender with
        | (.error e, n) => (.failure 502 ("TTS service error: " ++ e.message), n)
        | (.ok result, n) =>
          (.success ("data:audio/wav;base64," ++ result.audio_base64.getD "")
            (result.duration_seconds.getD 0) (result.model.getD req.model), n)

/-- Outcome of `POST /tts/synthesize/audio`: decoded audio bytes with the
content type and the `X-Duration-Seconds` header value. -/
inductive AudioHttpOutcome where
  | success (audio_bytes : String) (content_type : String) (duration_seconds : ℚ)
  | failure (statusCode : Nat) (detail : String)
deriving Repr, DecidableEq

/-- `synthesize_audio` (`POST /tts/synthesize/audio`): same preconditions as
`synthesize_speech`, returning the decoded audio stream. -/
def synthesize_audio (env : Env) (db : List Voice) (req : TTSRequest) :
    AudioHttpOutcome × Nat :=
  match get_voice db req.voice_id with
  | none => (.failure 404 ("Voice not found: " ++ req.voice_id), 0)
  | some voice =>
    if voice.processing_status ≠ "ready" then
      (.failure 400 ("Voice is not ready for synthesis. Status: "
        ++ voice.processing_status), 0)
    else
      match get_voice_audio_path env.fileExists db req.voice_id with
      | .error e => (.failure 500 e.message, 0)
      | .ok audio_path =>
        match synthesize env req.text req.model
          (if req.model == "chatterbox" || req.model == "xtts" then some audio_path else none)
          req.language "tara" req.emotion req.speaker_gender with
        | (.error e, n) => (.failure 502 ("TTS service error: " ++ e.message), n)
        | (.ok result, n) =>
          (.success (env.b64decode (result.audio_base64.getD ""))
            (if req.output_format == "wav" then "audio/wav" else "audio/mpeg")
            (result.duration_seconds.getD 0), n)

/-! ### `api/v1/websocket.py` -/

/-- `TTSStreamRequest` schema with its defaults. -/
structure TTSStreamRequest where
  text : String
  voice_id : String
  model : String := "svara"
  language : String := "hi"
  emotion : Option String := none
  speaker_gender : String := "female"

/-- One frame sent to the client over the socket (wall-clock
`processing_time_ms` omitted). -/
inductive Frame where
  | errorFrame (error : String) (code : String)
  | startFrame (voice_id : String) (model : String) (sample_rate : Nat)
  | chunkFrame (chunk_index : Nat) (audio_base64 : String) (is_final : Bool)
      (sample_rate : Nat)
  | endFrame (total_chunks : Nat) (total_duration_seconds : ℚ)
  | binaryFrame (data : String)
deriving Repr, DecidableEq

/-- The `async for chunk in stream_synthesis(...)` loop of
`process_tts_stream`: an error chunk aborts with a `TTS_ERROR` frame and no
end frame; the final chunk (or exhaustion) produces the end frame with the
accumulated chunk count. -/
def wsChunkLoop : List Chunk → Nat → List Frame
  | [], n => [.endFrame n 0]
  | c :: rest, n =>
    if c.error.isSome then [.errorFrame (c.error.getD "") "TTS_ERROR"]
    else if c.is_final == some true then [.endFrame n (c.duration_seconds.getD 0)]
    else .chunkFrame (c.chunk_index.getD 0) (c.audio_base64.getD "") false
        (c.sample_rate.getD 24000) :: wsChunkLoop rest (n + 1)

/-- `process_tts_stream`: voice lookup, readiness check, audio-path
resolution, start frame, then the chunk loop; a `TTSClientError` raised by
the generator becomes a `TTS_CLIENT_ERROR` frame.  The reference audio is
only forwarded for the `chatterbox` model, and `stream_synthesis` is called
without `language`/`voice`, so their defaults `"en"`/`"tara"` apply. -/
def process_tts_stream (env : Env) (db : List Voice) (req : TTSStreamRequest) :
    List Frame × Nat :=
  match get_voice db req.voice_id with
  | none => ([.errorFrame ("Voice not found: " ++ req.voice_id) "VOICE_NOT_FOUND"], 0)
  | some voice =>
    if voice.processing_status ≠ "ready" then
      ([.errorFrame ("Voice not ready. Status: " ++ voice.processing_status)
          "VOICE_NOT_READY"], 0)
    else
      match get_voice_audio_path env.fileExists db req.voice_id with
      | .error e => ([.errorFrame e.message "AUDIO_PATH_ERROR"], 0)
      | .ok audio_path =>
        let startF := Frame.startFrame req.voice_id req.model 24000
        match stream_synthesis env req.text req.model
            (if req.model == "chatterbox" then some audio_path else none)
            "en" "tara" req.emotion with
        | (.error e, n) => ([startF, .errorFrame e.message "TTS_CLIENT_ERROR"], n)
        | (.ok chunks, n) => (startF :: wsChunkLoop chunks 0, n)

/-- The chunk loop of the binary endpoint: raw decoded bytes per chunk, the
end frame only from the final chunk, `TTS_ERROR` on an error chunk. -/
def binChunkLoop (env : Env) : List Chunk → Nat → List Frame
  | [], _ => []
  | c :: rest, n =>
    if c.error.isSome then [.errorFrame (c.error.getD "") "TTS_ERROR"]
    else if c.is_final == some true then [.endFrame n (c.duration_seconds.getD 0)]
    else .binaryFrame (env.b64decode (c.audio_base64.getD ""))
        :: binChunkLoop env rest (n + 1)

/-- Handling of one valid request inside `tts_stream_binary_endpoint`: voice
lookup and audio-path resolution share one `except` that sends a
`VOICE_ERROR` frame, the readiness check follows, then start frame and the
binary chunk loop; a raised `TTSClientError` becomes a `TTS_ERROR` frame. -/
def tts_stream_binary_request (env : Env) (db : List Voice)
    (req : TTSStreamRequest) : List Frame × Nat :=
  match get_voice db req.voice_id with
  | none => ([.errorFrame ("Voice not found: " ++ req.voice_id) "VOICE_ERROR"], 0)
  | some voice =>
    match get_voice_audio_path env.fileExists db req.voice_id with
    | .error e => ([.errorFrame e.message "VOICE_ERROR"], 0)
    | .ok audio_path =>
      if voice.processing_status ≠ "ready" then
        ([.errorFrame "Voice not ready" "VOICE_NOT_READY"], 0)
      else
        let startF := Frame.startFrame req.voice_id req.model 24000
        match stream_synthesis env req.text req.model
            (if req.model == "chatterbox" then some audio_path else none)
            "en" "tara" req.emotion with
        | (.error e, n) => ([startF, .errorFrame e.message "TTS_ERROR"], n)
        | (.ok chunks, n) => (startF :: binChunkLoop env chunks 0, n)

/-- One incoming text frame as the endpoint's parse/validation stage sees it. -/
inductive Incoming where
  | invalidJson (raw : String)
  | invalidRequest (message : String)
  | valid (req : TTSStreamRequest)

/-- One iteration of the `/api/v1/tts/stream` receive loop. -/
def handle_stream_msg (env : Env) (db : List Voice) : Incoming → List Frame × Nat
  | .invalidJson _ => ([.errorFrame "Invalid JSON" "INVALID_JSON"], 0)
  | .invalidRequest m => ([.errorFrame ("Validation error: " ++ m) "VALIDATION_ERROR"], 0)
  | .valid req => process_tts_stream env db req

/-- The `/api/v1/tts/stream` connection: the `while True` loop runs until the
peer disconnects (end of the message list); every message is handled, errors
included — the server never closes the socket itself. -/
def tts_stream_endpoint (env : Env) (db : List Voice) : List Incoming → List Frame × Nat
  | [] => ([], 0)
  | m :: rest =>
    let h := handle_stream_msg env db m
    let t := tts_stream_endpoint env db rest
    (h.1 ++ t.1, h.2 + t.2)

/-- One iteration of the `/api/v1/tts/stream/binary` receive loop: JSON and
validation failures share a single `PARSE_ERROR` frame. -/
def handle_binary_msg (env : Env) (db : List Voice) : Incoming → List Frame × Nat
  | .invalidJson raw => ([.errorFrame raw "PARSE_ERROR"], 0)
  | .invalidRequest m => ([.errorFrame m "PARSE_ERROR"], 0)
  | .valid req => tts_stream_binary_request env db req

/-- The `/api/v1/tts/stream/binary` connection loop. -/
def tts_stream_binary_endpoint (env : Env) (db : List Voice) :
    List Incoming → List Frame × Nat
  | [] => ([], 0)
  | m :: rest =>
    let h := handle_binary_msg env db m
    let t := tts_stream_binary_endpoint env db rest
    (h.1 ++ t.1, h.2 + t.2)

/-- The `code` fields of the error frames in a frame list. -/
def errorCodes (fs : List Frame) : List String :=
  fs.filterMap fun f =>
    match f with
    | .errorFrame _ c => some c
    | _ => none

/-! ### Concrete fixtures used by counterexamples and witnesses -/

/-- A fixed successful remote response. -/
def okResponse : RemoteResponse :=
  { audio_base64 := some "UklGRg==", sample_rate := some 24000,
    duration_seconds := some 1, processing_time_ms := some 100,
    model := some "xtts-v2", language := some "en" }

/-- An environment where every file exists and the remote always succeeds. -/
def envAllOk : Env :=
  { fileExists := fun _ => true, readBytes := fun _ => "bytes",
    b64encode := fun s => s, b64decode := fun s => s,
    remote := fun _ => .response okResponse }

/-- The same environment with an empty filesystem. -/
def envNoFiles : Env :=
  { envAllOk with fileExists := fun _ => false }

/-- The mocked remote body of the spec's orpheus example: only
`audio_base64`, `sample_rate` and `duration_seconds` keys. -/
def mockOrpheusResponse : RemoteResponse :=
  { audio_base64 := some "QUJD", sample_rate := some 24000,
    duration_seconds := some (6/5) }

/-- An environment whose remote always answers with `mockOrpheusResponse`. -/
def envOrpheusMock : Env :=
  { envAllOk with remote := fun _ => .response mockOrpheusResponse }

/-! ### Claim C2 — xtts language validation -/

/-- Claim C2 counterexample: `"bn"` is not one of the 17 XTTS languages, yet
`synthesize_xtts` does not raise for it — the call goes through to the remote
and succeeds, because the validation uses the combined list. -/
theorem c2_xtts_17_set_counterexample :
    "bn" ∉ XTTS_SUPPORTED_LANGUAGES ∧
    (synthesize_xtts envAllOk "hello" "ref.wav" "bn").1 = .ok okResponse := by
  exact ⟨by decide, rfl⟩

/-- Claim C2 (amended): `synthesize_xtts` raises the unsupported-language
error exactly when the language is outside the combined
`SUPPORTED_LANGUAGES` list (the union of the 17 XTTS codes and the 20 svara
codes), and every language of the 17-entry XTTS set is in that list, hence
passes the validation step. -/
theorem c2_xtts_language_validation (env : Env) (text path lang : String) :
    (lang ∈ XTTS_SUPPORTED_LANGUAGES → lang ∈ SUPPORTED_LANGUAGES) ∧
    (synthesize_xtts env text path lang =
        (.error (.unsupportedLanguage lang SUPPORTED_LANGUAGES), 0) ↔
      lang ∉ SUPPORTED_LANGUAGES) := by
  constructor
  · intro h
    simp only [SUPPORTED_LANGUAGES, List.mem_dedup, List.mem_append]
    exact Or.inl h
  · unfold synthesize_xtts
    by_cases hmem : lang ∈ SUPPORTED_LANGUAGES
    · rw [if_neg (not_not_intro hmem), iff_false_intro (not_not_intro hmem), iff_false]
      intro hcontra
      by_cases hf : env.fileExists path
      · rw [if_neg (by simp [hf])] at hcontra
        unfold postRemote at hcontra
        split at hcontra
        · simp at hcontra
        · split at hcontra <;> simp at hcontra
      · rw [if_pos (by simp [hf])] at hcontra
        simp at hcontra
    · simp [hmem]

/-- Witness for `c2_xtts_language_validation`: instantiated at `"en"`. -/
theorem c2_xtts_language_validation_witness :
    "en" ∈ XTTS_SUPPORTED_LANGUAGES ∧ "en" ∈ SUPPORTED_LANGUAGES :=
  ⟨by decide, (c2_xtts_language_validation envAllOk "t" "p" "en").1 (by decide)⟩

/-! ### Claim C8 — orpheus example returns the remote body unchanged -/

/-- Claim C8 counterexample: with the stipulated mock response, the dict the
client returns is the mock itself, which has no `model` and no `language`
key — so it does not contain `model="orpheus"` or `language="en"`. -/
theorem c8_orpheus_example_counterexample :
    (synthesize envOrpheusMock "Hi" "orpheus" none "en" "tara" (some "happy")
        "female").1 = .ok mockOrpheusResponse ∧
    mockOrpheusResponse.model ≠ some "orpheus" ∧
    mockOrpheusResponse.language ≠ some "en" := by
  exact ⟨rfl, by decide, by decide⟩

/-- Claim C8 (amended): `synthesize_orpheus` returns the remote response body
unchanged whenever it carries no `error` key; in particular, the spec's
example call against the stipulated mock returns exactly the mock — keys
`audio_base64`, `sample_rate = 24000`, `duration_seconds = 1.2`, and no
`model` or `language` key. -/
theorem c8_orpheus_passthrough (env : Env) (text voice : String)
    (emotion : Option String) (r : RemoteResponse)
    (h : env.remote { model := "orpheus", text := text, voice := some voice
                    , emotion := if truthy emotion then emotion else none } = .response r)
    (he : r.error = none) :
    synthesize_orpheus env text voice emotion = (.ok r, 1) ∧
    synthesize envOrpheusMock "Hi" "orpheus" none "en" "tara" (some "happy")
        "female" = (.ok mockOrpheusResponse, 1) ∧
    mockOrpheusResponse.sample_rate = some 24000 ∧
    mockOrpheusResponse.duration_seconds = some (6/5) ∧
    mockOrpheusResponse.model = none ∧ mockOrpheusResponse.language = none := by
  refine ⟨?_, rfl, rfl, rfl, rfl, rfl⟩
  unfold synthesize_orpheus postRemote
  rw [h]
  simp [he]

/-- Witness for `c8_orpheus_passthrough`. -/
theorem c8_orpheus_passthrough_witness :
    synthesize_orpheus envOrpheusMock "Hi" "tara" (some "happy") =
      (.ok mockOrpheusResponse, 1) :=
  (c8_orpheus_passthrough envOrpheusMock "Hi" "tara" (some "happy")
    mockOrpheusResponse rfl rfl).1

/-! ### Claim C9 — missing reference audio: svara skips, xtts/chatterbox raise -/

/-- Claim C9: when the reference-audio file does not exist, `synthesize_svara`
silently omits it (the call is indistinguishable from one with no
`audio_path`), while `synthesize_xtts` (for a supported language, which is
when its file check is reached) and `synthesize_chatterbox` raise the
file-not-found `TTSClientError` with no remote call. -/
theorem c9_missing_reference_audio (env : Env) (text lang gender p : String)
    (emotion : Option String) (exg cfg : ℚ)
    (hp : env.fileExists p = false) (hlang : lang ∈ SUPPORTED_LANGUAGES) :
    synthesize_svara env text lang emotion gender (some p) =
      synthesize_svara env text lang emotion gender none ∧
    synthesize_xtts env text p lang = (.error (.audioFileNotFound p), 0) ∧
    synthesize_chatterbox env text p exg cfg =
      (.error (.audioFileNotFound p), 0) := by
  refine ⟨?_, ?_, ?_⟩
  · unfold synthesize_svara
    simp [hp]
  · unfold synthesize_xtts
    simp [hlang, hp]
  · unfold synthesize_chatterbox
    simp [hp]

/-- Witness for `c9_missing_reference_audio` at a concrete empty filesystem. -/
theorem c9_missing_reference_audio_witness :
    envNoFiles.fileExists "ref.wav" = false ∧
    synthesize_xtts envNoFiles "hi" "ref.wav" "en" =
      (.error (.audioFileNotFound "ref.wav"), 0) :=
  ⟨rfl, (c9_missing_reference_audio envNoFiles "hi" "en" "female" "ref.wav"
    none (1/2) (1/2) rfl (by decide)).2.1⟩

/-! ### Claim C3 — successful streaming yields exactly two chunks -/

/-- Claim C3: when the underlying one-shot `synthesize` succeeds with no
`error` field, `stream_synthesis` yields exactly two items: a non-final
chunk with index 0 carrying the complete audio, then a final summary chunk
with `total_chunks = 1`. -/
theorem c3_stream_two_chunks (env : Env) (text model : String)
    (audio_path : Option String) (language voice : String)
    (emotion : Option String) (r : RemoteResponse) (n : Nat)
    (h : synthesize env text model audio_path language voice emotion "female" =
      (.ok r, n)) (he : r.error = none) :
    stream_synthesis env text model audio_path language voice emotion =
      (.ok [{ chunk_index := some 0,
              audio_base64 := some (r.audio_base64.getD ""),
              sample_rate := some (r.sample_rate.getD 24000),
              language := some (r.language.getD language),
              is_final := some false },
            { is_final := some true, total_chunks := some 1,
              duration_seconds := some (r.duration_seconds.getD 0),
              processing_time_ms := some (r.processing_time_ms.getD 0) }], n) := by
  unfold stream_synthesis
  rw [h]
  simp [he]

/-- Witness for `c3_stream_two_chunks`: an orpheus run against the
always-succeeding remote. -/
theorem c3_stream_two_chunks_witness :
    stream_synthesis envAllOk "Hi" "orpheus" none "en" "tara" none =
      (.ok [{ chunk_index := some 0, audio_base64 := some "UklGRg==",
              sample_rate := some 24000, language := some "en",
              is_final := some false },
            { is_final := some true, total_chunks := some 1,
              duration_seconds := some 1, processing_time_ms := some 100 }], 1) :=
  c3_stream_two_chunks envAllOk "Hi" "orpheus" none "en" "tara" none
    okResponse 1 rfl rfl

/-! ### Claim C6 — page_size clamping in `GET /voices` -/

/-- Claim C6 counterexample: `page_size = 0` is replaced by the default 20,
not clamped to 1 as the claim states. -/
theorem c6_page_size_zero_counterexample :
    (list_voices_endpoint [] 1 0 true).page_size = 20 ∧ (20 : Int) ≠ 1 := by
  exact ⟨rfl, by decide⟩

/-- Claim C6 (amended): the effective page size of `GET /voices` is the input
with values below 1 replaced by the default 20, values above 100 capped at
100, and in-range values unchanged. -/
theorem c6_page_size_clamp (db : List Voice) (page ps : Int) (ao : Bool) :
    (list_voices_endpoint db page ps ao).page_size =
      if ps < 1 then 20 else if ps > 100 then 100 else ps := rfl

/-! ### Claim C7 — out-of-window durations fail with the duration in the message -/

/-- Claim C7: an uploaded file that passes the size and extension checks and
decodes to a duration strictly below 3 s or strictly above 60 s is rejected
by `validate_audio_file` with an `AudioProcessingError` whose message
contains the measured duration (rendered to one decimal, as `{:.1f}`
does). -/
theorem c7_duration_validation (s : Settings) (aenv : AudioEnv)
    (content filename : String) (info : AudioInfo)
    (hsize : ¬ ((content.length : ℚ) / (1024 * 1024) > (s.max_voice_sample_size_mb : ℚ)))
    (hext : fileExtension filename ∈ s.allowed_audio_formats)
    (hdec : aenv.decode content = some info)
    (hdur : info.duration_seconds < 3 ∨ info.duration_seconds > 60) :
    ∃ msg, validate_audio_file s aenv content filename none = .error msg ∧
      ∃ pre post, msg = pre ++ fmt1 info.duration_seconds ++ post := by
  unfold validate_audio_file
  rw [if_neg hsize, if_neg (not_not_intro hext), hdec]
  rcases hdur with h | h
  · refine ⟨_, ?_, "Audio duration (",
      "s) is too short. Minimum 3 seconds required for voice cloning.", rfl⟩
    simp [h]
  · have h3 : ¬ info.duration_seconds < 3 := by linarith
    refine ⟨_, ?_, "Audio duration (",
      "s) is too long. Maximum 60 seconds allowed.", rfl⟩
    simp [h, h3]

/-- The settings with all defaults of `core/config.py`. -/
def defaultSettings : Settings := {}

/-- A decoded-audio info of a 2-second clip (used by the C7 witness). -/
def shortClipInfo : AudioInfo :=
  { duration_seconds := 2, sample_rate := 24000, channels := 1,
    format := "WAV", subtype := "PCM_16" }

/-- An audio environment that decodes everything to the 2-second clip and
fails normalization. -/
def shortClipAudioEnv : AudioEnv :=
  { decode := fun _ => some shortClipInfo, normalize := fun _ => .error "boom" }

/-- Witness for `c7_duration_validation`: a 2-second `sample.wav` upload. -/
theorem c7_duration_validation_witness :
    (¬ ((("x".length : ℚ)) / (1024 * 1024) > ((defaultSettings).max_voice_sample_size_mb : ℚ))) ∧
    fileExtension "sample.wav" ∈ (defaultSettings).allowed_audio_formats ∧
    (shortClipInfo.duration_seconds < 3 ∨ shortClipInfo.duration_seconds > 60) ∧
    (∃ msg, validate_audio_file defaultSettings shortClipAudioEnv "x" "sample.wav" none =
        .error msg ∧
      ∃ pre post, msg = pre ++ fmt1 shortClipInfo.duration_seconds ++ post) := by
  have hsz : ¬ ((("x".length : ℚ)) / (1024 * 1024) >
      ((defaultSettings).max_voice_sample_size_mb : ℚ)) := by
    have h1 : ("x".length : ℚ) = 1 := by norm_num [String.length]
    rw [h1]; norm_num [defaultSettings]
  have hex : fileExtension "sample.wav" ∈ (defaultSettings).allowed_audio_formats := by
    decide
  have hdu : shortClipInfo.duration_seconds < 3 ∨ shortClipInfo.duration_seconds > 60 := by
    norm_num [shortClipInfo]
  exact ⟨hsz, hex, hdu, c7_duration_validation defaultSettings shortClipAudioEnv "x"
    "sample.wav" shortClipInfo hsz hex rfl hdu⟩

/-! ### Claim C10 — rollback when normalization fails in `create_voice` -/

/-- Claim C10: if audio normalization fails during `create_voice` (after a
successful validation), the call raises `VoiceServiceError` and — provided
the generated voice id is fresh, as a `uuid4` is — the per-voice directory
with the saved original is removed, no row is added, and the resulting
state equals the initial one. -/
theorem c10_create_voice_rollback (s : Settings) (aenv : AudioEnv) (st : SysState)
    (vd : VoiceCreate) (content filename vid : String)
    (vinfo : String × AudioInfo) (e : String)
    (hval : validate_audio_file s aenv content filename none = .ok vinfo)
    (hnorm : aenv.normalize content = .error e)
    (hdirs : ∀ d ∈ st.dirs, ¬ ([s.voice_storage_path, vid].isPrefixOf d = true))
    (hfiles : ∀ p ∈ st.files, ¬ ([s.voice_storage_path, vid].isPrefixOf p = true)) :
    create_voice s aenv st vd content filename vid =
      (.error (.processFailed e), st) := by
  obtain ⟨dirs, files, db⟩ := st
  unfold create_voice
  rw [hval]
  dsimp only
  rw [hnorm]
  dsimp only
  have hd : List.filter (fun d => ! [s.voice_storage_path, vid].isPrefixOf d)
      ([s.voice_storage_path, vid] :: dirs) = dirs := by
    rw [List.filter_cons_of_neg (by simp [List.isPrefixOf_iff_prefix])]
    refine List.filter_eq_self.mpr (fun d hd => ?_)
    simp only [Bool.not_eq_true']
    exact Bool.eq_false_iff.mpr (hdirs d hd)
  have hf : List.filter (fun d => ! [s.voice_storage_path, vid].isPrefixOf d)
      (([s.voice_storage_path, vid] ++ ["original" ++ fileSuffixDot filename]) :: files) =
      files := by
    rw [List.filter_cons_of_neg (by simp [List.isPrefixOf_iff_prefix, List.prefix_append])]
    refine List.filter_eq_self.mpr (fun p hp => ?_)
    simp only [Bool.not_eq_true']
    exact Bool.eq_false_iff.mpr (hfiles p hp)
  rw [hd, hf]

/-- A decoded-audio info of a valid 10-second clip. -/
def validClipInfo : AudioInfo :=
  { duration_seconds := 10, sample_rate := 24000, channels := 1,
    format := "WAV", subtype := "PCM_16" }

/-- An audio environment where decoding yields the valid clip but
normalization fails. -/
def failingNormalizeEnv : AudioEnv :=
  { decode := fun _ => some validClipInfo, normalize := fun _ => .error "codec error" }

/-- Witness for `c10_create_voice_rollback`: a fresh voice id over an empty
initial state. -/
theorem c10_create_voice_rollback_witness :
    validate_audio_file defaultSettings failingNormalizeEnv "x" "sample.wav" none =
      .ok ("wav", validClipInfo) ∧
    create_voice defaultSettings failingNormalizeEnv {} ⟨"My Voice", none, "en", none⟩
        "x" "sample.wav" "v1" =
      (.error (.processFailed "codec error"), {}) := by
  have hsz : ¬ ((("x".length : ℚ)) / (1024 * 1024) >
      ((defaultSettings).max_voice_sample_size_mb : ℚ)) := by
    have h1 : ("x".length : ℚ) = 1 := by norm_num [String.length]
    rw [h1]; norm_num [defaultSettings]
  have hex : fileExtension "sample.wav" ∈ (defaultSettings).allowed_audio_formats := by
    decide
  have hval : validate_audio_file defaultSettings failingNormalizeEnv "x" "sample.wav" none =
      .ok ("wav", validClipInfo) := by
    unfold validate_audio_file
    rw [if_neg hsz, if_neg (not_not_intro hex)]
    simp only [failingNormalizeEnv]
    rw [if_neg (by norm_num [validClipInfo]), if_neg (by norm_num [validClipInfo])]
    have hws : fileExtension "sample.wav" = "wav" := by decide
    rw [hws]
  refine ⟨hval, ?_⟩
  exact c10_create_voice_rollback defaultSettings failingNormalizeEnv {}
    ⟨"My Voice", none, "en", none⟩ "x" "sample.wav" "v1" ("wav", validClipInfo)
    "codec error" hval rfl (by simp) (by simp)

/-! ### Claim C5 — pagination bounds and page count -/

/-- `math.ceil` of a positive-naturals division as natural division. -/
lemma natCeil_cast_div (t n : ℕ) (hn : 0 < n) (ht : 0 < t) :
    ⌈(t : ℚ) / n⌉₊ = (t + n - 1) / n := by
  have hnq : (0 : ℚ) < n := by exact_mod_cast hn
  apply le_antisymm
  · rw [Nat.ceil_le, div_le_iff₀ hnq]
    have h1 : t ≤ (t + n - 1) / n * n := by
      have e := Nat.div_add_mod (t - 1) n
      have hr : (t - 1) % n < n := Nat.mod_lt _ hn
      have hq : (t + n - 1) / n = (t - 1) / n + 1 := by
        rw [show t + n - 1 = (t - 1) + n by omega, Nat.add_div_right _ hn]
      rw [hq, Nat.add_mul, one_mul, mul_comm n ((t - 1) / n)] at *
      generalize (t - 1) / n * n = p at *
      omega
    exact_mod_cast Nat.cast_le.mpr h1
  · rw [Nat.div_le_iff_le_mul_add_pred hn]
    have h2 : t ≤ n * ⌈(t : ℚ) / n⌉₊ := by
      have hle := Nat.le_ceil ((t : ℚ) / n)
      rw [div_le_iff₀ hnq] at hle
      have hle2 : (t : ℚ) ≤ (⌈(t : ℚ) / n⌉₊ * n : ℕ) := by push_cast; linarith
      have h3 : t ≤ ⌈(t : ℚ) / n⌉₊ * n := by exact_mod_cast hle2
      rw [mul_comm] at h3; exact h3
    generalize n * ⌈(t : ℚ) / n⌉₊ = p at h2 ⊢
    omega

/-- Claim C5: for every page ≥ 1 and page size in [1, 100], `GET /voices`
returns at most `page_size` items, and `total_pages` is the ceiling of
`total / page_size` (written as natural division) for a nonempty table,
and 1 for an empty one. -/
theorem c5_pagination (db : List Voice) (page ps : Int) (ao : Bool)
    (hp : 1 ≤ page) (h1 : 1 ≤ ps) (h2 : ps ≤ 100) :
    (list_voices_endpoint db page ps ao).items.length ≤ ps.toNat ∧
    (0 < (list_voices_endpoint db page ps ao).total →
      (list_voices_endpoint db page ps ao).total_pages =
        ((list_voices_endpoint db page ps ao).total + ps.toNat - 1) / ps.toNat) ∧
    ((list_voices_endpoint db page ps ao).total = 0 →
      (list_voices_endpoint db page ps ao).total_pages = 1) := by
  have hpage : ¬ page < 1 := not_lt.mpr hp
  have hps1 : ¬ ps < 1 := not_lt.mpr h1
  have hps2 : ¬ ps > 100 := not_lt.mpr h2
  have hpos : 0 < ps.toNat := by omega
  unfold list_voices_endpoint list_voices
  dsimp only
  rw [if_neg hpage, if_neg hps1, if_neg hps2]
  refine ⟨?_, ?_, ?_⟩
  · simp [List.length_take]
  · intro ht
    rw [if_pos ht]
    exact natCeil_cast_div _ _ hpos ht
  · intro h0
    rw [if_neg (by omega)]

/-- Three voice rows for the pagination witness. -/
def dbThreeVoices : List Voice :=
  [{ id := "a", created_at := 3 }, { id := "b", created_at := 1 },
   { id := "c", created_at := 2 }]

/-- Witness for `c5_pagination`: page 1 with page size 2 over three rows. -/
theorem c5_pagination_witness :
    (1 ≤ (1 : Int)) ∧ (1 ≤ (2 : Int)) ∧ ((2 : Int) ≤ 100) ∧
    ((list_voices_endpoint dbThreeVoices 1 2 true).items.length ≤ (2 : Int).toNat ∧
     (0 < (list_voices_endpoint dbThreeVoices 1 2 true).total →
       (list_voices_endpoint dbThreeVoices 1 2 true).total_pages =
         ((list_voices_endpoint dbThreeVoices 1 2 true).total + (2 : Int).toNat - 1) /
           (2 : Int).toNat) ∧
     ((list_voices_endpoint dbThreeVoices 1 2 true).total = 0 →
       (list_voices_endpoint dbThreeVoices 1 2 true).total_pages = 1)) :=
  ⟨by decide, by decide, by decide,
   c5_pagination dbThreeVoices 1 2 true (by decide) (by decide) (by decide)⟩

/-! ### Claim C1 — a non-ready voice fails before any remote call -/

/-- A voice row still in `pending` state. -/
def notReadyVoice : Voice :=
  { id := "v1", processing_status := "pending", processed_audio_path := "p" }

/-- A database holding only the pending voice. -/
def dbNotReady : List Voice := [notReadyVoice]

/-- A streaming request addressing the pending voice. -/
def sreqV1 : TTSStreamRequest := { text := "hello", voice_id := "v1" }

/-- An HTTP synthesis request addressing the pending voice. -/
def reqV1 : TTSRequest := { text := "hello", voice_id := "v1" }

/-- Claim C1 counterexample: on the binary stream path, when the pending
voice's processed audio file is missing, the failure frame carries code
`VOICE_ERROR` (the audio-path lookup precedes the readiness check there) —
not HTTP 400 and not `VOICE_NOT_READY` as the claim enumerates.  No remote
call is made either way. -/
theorem c1_binary_not_ready_counterexample :
    tts_stream_binary_request envNoFiles dbNotReady sreqV1 =
      ([.errorFrame "Audio file not found for voice: v1" "VOICE_ERROR"], 0) ∧
    ("VOICE_ERROR" : String) ≠ "VOICE_NOT_READY" := by
  exact ⟨rfl, by decide⟩

/-- Claim C1 (amended): for a voice that exists with
`processing_status ≠ "ready"`, both HTTP synthesis endpoints answer 400, the
JSON stream path sends a `VOICE_NOT_READY` error frame, and the binary
stream path sends a `VOICE_NOT_READY` frame when the processed audio file
exists and a `VOICE_ERROR` frame otherwise; in all four cases no remote
synthesis call is issued (the call counter is 0). -/
theorem c1_not_ready_blocks_remote (env : Env) (db : List Voice) (vid : String)
    (v : Voice) (req : TTSRequest) (sreq : TTSStreamRequest)
    (hv : get_voice db vid = some v) (hs : v.processing_status ≠ "ready")
    (hr : req.voice_id = vid) (hsr : sreq.voice_id = vid) :
    synthesize_speech env db req =
      (.failure 400 ("Voice is not ready for synthesis. Status: "
        ++ v.processing_status), 0) ∧
    synthesize_audio env db req =
      (.failure 400 ("Voice is not ready for synthesis. Status: "
        ++ v.processing_status), 0) ∧
    process_tts_stream env db sreq =
      ([.errorFrame ("Voice not ready. Status: " ++ v.processing_status)
          "VOICE_NOT_READY"], 0) ∧
    tts_stream_binary_request env db sreq =
      (if env.fileExists v.processed_audio_path then
        ([.errorFrame "Voice not ready" "VOICE_NOT_READY"], 0)
      else
        ([.errorFrame (VoiceServiceError.message (.audioMissing vid))
            "VOICE_ERROR"], 0)) := by
  refine ⟨?_, ?_, ?_, ?_⟩
  · unfold synthesize_speech
    rw [hr, hv]
    dsimp only
    rw [if_pos hs]
  · unfold synthesize_audio
    rw [hr, hv]
    dsimp only
    rw [if_pos hs]
  · unfold process_tts_stream
    rw [hsr, hv]
    dsimp only
    rw [if_pos hs]
  · unfold tts_stream_binary_request get_voice_audio_path
    rw [hsr, hv]
    dsimp only
    by_cases hf : env.fileExists v.processed_audio_path
    · rw [if_neg (by simp [hf]), if_pos hf]
      dsimp only
      rw [if_pos hs]
    · rw [if_pos (by simp [hf]), if_neg hf]

/-- Witness for `c1_not_ready_blocks_remote`: the pending voice with its
audio file present. -/
theorem c1_not_ready_blocks_remote_witness :
    get_voice dbNotReady "v1" = some notReadyVoice ∧
    notReadyVoice.processing_status ≠ "ready" ∧
    process_tts_stream envAllOk dbNotReady sreqV1 =
      ([.errorFrame ("Voice not ready. Status: " ++ notReadyVoice.processing_status)
          "VOICE_NOT_READY"], 0) :=
  ⟨rfl, by decide,
   (c1_not_ready_blocks_remote envAllOk dbNotReady "v1" notReadyVoice reqV1 sreqV1
     rfl (by decide) rfl rfl).2.2.1⟩

/-! ### Claim C4 — error-frame codes and connection survival -/

/-- A ready voice row. -/
def readyVoice : Voice :=
  { id := "r1", processing_status := "ready", processed_audio_path := "p.wav" }

/-- The error codes the WebSocket layer actually emits. -/
def wsErrorCodeSet : List String :=
  ["VOICE_NOT_FOUND", "VOICE_NOT_READY", "TTS_ERROR", "TTS_CLIENT_ERROR",
   "INVALID_JSON", "VALIDATION_ERROR", "AUDIO_PATH_ERROR", "PARSE_ERROR",
   "VOICE_ERROR"]

/-- The six codes the claim enumerates. -/
def claimedErrorCodeSet : List String :=
  ["VOICE_NOT_FOUND", "VOICE_NOT_READY", "TTS_ERROR", "INVALID_JSON",
   "VALIDATION_ERROR", "AUDIO_PATH_ERROR"]

lemma codes_wsChunkLoop (chunks : List Chunk) : ∀ (n : Nat) (c : String),
    c ∈ errorCodes (wsChunkLoop chunks n) → c = "TTS_ERROR" := by
  induction chunks with
  | nil =>
    intro n c hc
    simp [wsChunkLoop, errorCodes] at hc
  | cons ch rest ih =>
    intro n c hc
    unfold wsChunkLoop at hc
    split at hc
    · simp [errorCodes] at hc
      exact hc
    · split at hc
      · simp [errorCodes] at hc
      · simp only [errorCodes, List.filterMap_cons] at hc
        exact ih (n + 1) c (by simpa [errorCodes] using hc)

lemma codes_binChunkLoop (env : Env) (chunks : List Chunk) : ∀ (n : Nat) (c : String),
    c ∈ errorCodes (binChunkLoop env chunks n) → c = "TTS_ERROR" := by
  induction chunks with
  | nil =>
    intro n c hc
    simp [binChunkLoop, errorCodes] at hc
  | cons ch rest ih =>
    intro n c hc
    unfold binChunkLoop at hc
    split at hc
    · simp [errorCodes] at hc
      exact hc
    · split at hc
      · simp [errorCodes] at hc
      · simp only [errorCodes, List.filterMap_cons] at hc
        exact ih (n + 1) c (by simpa [errorCodes] using hc)

lemma codes_process_tts_stream (env : Env) (db : List Voice)
    (req : TTSStreamRequest) :
    ∀ c ∈ errorCodes (process_tts_stream env db req).1, c ∈ wsErrorCodeSet := by
  intro c hc
  unfold process_tts_stream at hc
  split at hc
  · simp [errorCodes] at hc
    simp [hc, wsErrorCodeSet]
  · split at hc
    · simp [errorCodes] at hc
      simp [hc, wsErrorCodeSet]
    · split at hc
      · simp [errorCodes] at hc
        simp [hc, wsErrorCodeSet]
      · split at hc
        · simp [errorCodes] at hc
          simp [hc, wsErrorCodeSet]
        · simp only [errorCodes, List.filterMap_cons] at hc
          rw [codes_wsChunkLoop _ _ c (by simpa [errorCodes] using hc)]
          simp [wsErrorCodeSet]

lemma codes_binary_request (env : Env) (db : List Voice)
    (req : TTSStreamRequest) :
    ∀ c ∈ errorCodes (tts_stream_binary_request env db req).1, c ∈ wsErrorCodeSet := by
  intro c hc
  unfold tts_stream_binary_request at hc
  split at hc
  · simp [errorCodes] at hc
    simp [hc, wsErrorCodeSet]
  · split at hc
    · simp [errorCodes] at hc
      simp [hc, wsErrorCodeSet]
    · split at hc
      · simp [errorCodes] at hc
        simp [hc, wsErrorCodeSet]
      · split at hc
        · simp [errorCodes] at hc
          simp [hc, wsErrorCodeSet]
        · simp only [errorCodes, List.filterMap_cons] at hc
          rw [codes_binChunkLoop _ _ _ c (by simpa [errorCodes] using hc)]
          simp [wsErrorCodeSet]

lemma codes_handle_stream_msg (env : Env) (db : List Voice) (m : Incoming) :
    ∀ c ∈ errorCodes (handle_stream_msg env db m).1, c ∈ wsErrorCodeSet := by
  cases m with
  | invalidJson raw =>
    intro c hc
    simp [handle_stream_msg, errorCodes] at hc
    simp [hc, wsErrorCodeSet]
  | invalidRequest msg =>
    intro c hc
    simp [handle_stream_msg, errorCodes] at hc
    simp [hc, wsErrorCodeSet]
  | valid req => exact codes_process_tts_stream env db req

lemma codes_handle_binary_msg (env : Env) (db : List Voice) (m : Incoming) :
    ∀ c ∈ errorCodes (handle_binary_msg env db m).1, c ∈ wsErrorCodeSet := by
  cases m with
  | invalidJson raw =>
    intro c hc
    simp [handle_binary_msg, errorCodes] at hc
    simp [hc, wsErrorCodeSet]
  | invalidRequest msg =>
    intro c hc
    simp [handle_binary_msg, errorCodes] at hc
    simp [hc, wsErrorCodeSet]
  | valid req => exact codes_binary_request env db req

lemma stream_endpoint_frames_append (env : Env) (db : List Voice)
    (xs ys : List Incoming) :
    (tts_stream_endpoint env db (xs ++ ys)).1 =
      (tts_stream_endpoint env db xs).1 ++ (tts_stream_endpoint env db ys).1 := by
  induction xs with
  | nil => simp [tts_stream_endpoint]
  | cons m rest ih =>
    simp only [List.cons_append, tts_stream_endpoint, List.append_eq, ih, List.append_assoc]

lemma binary_endpoint_frames_append (env : Env) (db : List Voice)
    (xs ys : List Incoming) :
    (tts_stream_binary_endpoint env db (xs ++ ys)).1 =
      (tts_stream_binary_endpoint env db xs).1 ++
        (tts_stream_binary_endpoint env db ys).1 := by
  induction xs with
  | nil => simp [tts_stream_binary_endpoint]
  | cons m rest ih =>
    simp only [List.cons_append, tts_stream_binary_endpoint, List.append_eq, ih, List.append_assoc]

/-- Claim C4 counterexample: a valid request for a ready voice with
`model = "xtts"` on the JSON stream path makes `synthesize` raise (the
WebSocket layer passes no reference audio for non-chatterbox models), and
the resulting frame code is `TTS_CLIENT_ERROR` — outside the claim's
six-code set. -/
theorem c4_error_code_counterexample :
    errorCodes (tts_stream_endpoint envAllOk [readyVoice]
        [.valid { text := "hello", voice_id := "r1", model := "xtts" }]).1 =
      ["TTS_CLIENT_ERROR"] ∧
    "TTS_CLIENT_ERROR" ∉ claimedErrorCodeSet := by
  exact ⟨rfl, by decide⟩

/-- Claim C4 (amended): every error frame either WebSocket endpoint emits
carries a code from the nine-code set `{VOICE_NOT_FOUND, VOICE_NOT_READY,
TTS_ERROR, TTS_CLIENT_ERROR, INVALID_JSON, VALIDATION_ERROR,
AUDIO_PATH_ERROR, PARSE_ERROR, VOICE_ERROR}`, and the server never closes
the connection after an error frame: the frames of a longer message
sequence extend those of any prefix, so later requests on the same socket
are still served. -/
theorem c4_error_frames (env : Env) (db : List Voice) (msgs : List Incoming) :
    (∀ c ∈ errorCodes (tts_stream_endpoint env db msgs).1, c ∈ wsErrorCodeSet) ∧
    (∀ c ∈ errorCodes (tts_stream_binary_endpoint env db msgs).1,
      c ∈ wsErrorCodeSet) ∧
    (∀ msgs', (tts_stream_endpoint env db (msgs ++ msgs')).1 =
      (tts_stream_endpoint env db msgs).1 ++ (tts_stream_endpoint env db msgs').1) ∧
    (∀ msgs', (tts_stream_binary_endpoint env db (msgs ++ msgs')).1 =
      (tts_stream_binary_endpoint env db msgs).1 ++
        (tts_stream_binary_endpoint env db msgs').1) := by
  refine ⟨?_, ?_, stream_endpoint_frames_append env db msgs,
    binary_endpoint_frames_append env db msgs⟩
  · induction msgs with
    | nil => intro c hc; simp [tts_stream_endpoint, errorCodes] at hc
    | cons m rest ih =>
      intro c hc
      simp only [tts_stream_endpoint, errorCodes, List.filterMap_append] at hc
      rcases List.mem_append.mp hc with h | h
      · exact codes_handle_stream_msg env db m c h
      · exact ih c h
  · induction msgs with
    | nil => intro c hc; simp [tts_stream_binary_endpoint, errorCodes] at hc
    | cons m rest ih =>
      intro c hc
      simp only [tts_stream_binary_endpoint, errorCodes, List.filterMap_append] at hc
      rcases List.mem_append.mp hc with h | h
      · exact codes_handle_binary_msg env db m c h
      · exact ih c h

/-- Witness for `c4_error_frames`: an invalid-JSON frame yields code
`INVALID_JSON`, inside the nine-code set. -/
theorem c4_error_frames_witness :
    "INVALID_JSON" ∈
      errorCodes (tts_stream_endpoint envAllOk [] [.invalidJson "not json"]).1 ∧
    "INVALID_JSON" ∈ wsErrorCodeSet :=
  ⟨by decide,
   (c4_error_frames envAllOk [] [.invalidJson "not json"]).1 "INVALID_JSON" (by decide)⟩

end Voiceclone
